import Mathlib

/-!
Verification development for the restaurant-catalogue chat bot
(`src/main.py`).  The conversation controller, its persistence layer and
the menu rendering are shallowly embedded below; Python dictionaries are
modelled as insertion-ordered association lists, the callback-data
dispatch of `menu_actions` is modelled on plain strings so that the
`elif` chain and its `startswith` tests keep their source order, and the
file system is modelled as an abstract file state (missing, corrupt, or
holding a catalogue).
-/

namespace RestoBot

/-! ## Python string primitives used by the source -/

/-- Model of Python `s.startswith(p)`: the characters of `p` are a
prefix of the characters of `s`. -/
def pyStartswith (s p : String) : Bool :=
  p.data.isPrefixOf s.data

/-- Everything after the first `:` of the character list, if any. -/
def splitTailChars : List Char → Option (List Char)
  | [] => none
  | c :: cs => if c = ':' then some cs else splitTailChars cs

/-- Model of Python `s.split(":", 1)[1]`: the text after the first
colon; `none` models the `IndexError` raised when `s` has no colon. -/
def split1Tail (s : String) : Option String :=
  (splitTailChars s.data).map (fun cs => String.mk cs)

/-- Split a character list at every occurrence of `sep`. -/
def splitSepAux (sep : Char) (acc : List Char) : List Char → List (List Char)
  | [] => [acc.reverse]
  | c :: cs => if c = sep then acc.reverse :: splitSepAux sep [] cs else splitSepAux sep (c :: acc) cs

/-- Model of Python `s.split(sep)` for a one-character separator; note
`"".split(",") == [""]`. -/
def pySplit (s : String) (sep : Char) : List String :=
  (splitSepAux sep [] s.data).map String.mk

/-- Model of Python `s.strip()` (ASCII whitespace). -/
def pyStrip (s : String) : String :=
  String.mk (((s.data.dropWhile Char.isWhitespace).reverse.dropWhile Char.isWhitespace).reverse)

/-- Model of Python `s.isdigit()` for ASCII data: nonempty and all
characters are decimal digits. -/
def pyIsdigit (s : String) : Bool :=
  !s.data.isEmpty && s.data.all Char.isDigit

/-- Numeric value of a decimal digit string (the value Python `int` /
`float` gives on the digit strings that pass `isdigit`). -/
def digitsVal (cs : List Char) : Nat :=
  cs.foldl (fun n c => 10 * n + (c.toNat - 48)) 0

/-- Model of Python truthiness of a string: nonempty. -/
def pyTruthy (s : String) : Bool :=
  !s.data.isEmpty

/-! ## Callback-data constants (lines 21-29 of `src/main.py`) -/

def ADD_RESTAURANT : String := "add_restaurant"
def EDIT_RESTAURANT : String := "edit_restaurant"
def DELETE_RESTAURANT : String := "delete_restaurant"
def VIEW_RESTAURANTS : String := "view_restaurants"
def RECOMMEND_RESTAURANTS : String := "recommend_restaurants"
def CONFIRM_DELETE : String := "confirm_delete"
def CANCEL : String := "cancel"
def RATE : String := "rate"
def VIEW_RESTAURANT : String := "view_restaurant"

/-! ## Data model: catalogue as an insertion-ordered dictionary -/

/-- One restaurant record: a required location and an optional
string-encoded rating, as stored in `restaurants.json`. -/
structure RInfo where
  location : String
  rating : Option String := none
  deriving DecidableEq, Repr

/-- A Python dict keyed by restaurant name, with insertion order. -/
abbrev Catalogue := List (String × RInfo)

/-- Model of `d[k]` lookup (first matching key). -/
def dictGet (c : Catalogue) (k : String) : Option RInfo :=
  match c with
  | [] => none
  | (k', v) :: rest => if k' = k then some v else dictGet rest k

/-- Model of `k in d`. -/
def dictContains (c : Catalogue) (k : String) : Bool :=
  (dictGet c k).isSome

/-- Model of `d[k] = v`: replace in place when the key exists (keeping
its position, as Python dicts do), otherwise append at the end. -/
def dictSet (c : Catalogue) (k : String) (v : RInfo) : Catalogue :=
  match c with
  | [] => [(k, v)]
  | (k', v') :: rest => if k' = k then (k, v) :: rest else (k', v') :: dictSet rest k v

/-- Model of `del d[k]`. -/
def dictDel (c : Catalogue) (k : String) : Catalogue :=
  c.filter (fun p => p.1 ≠ k)

/-- Model of `d[k]["rating"] = r` (only the rating field changes). -/
def dictSetRating (c : Catalogue) (k : String) (r : String) : Catalogue :=
  match c with
  | [] => []
  | (k', v) :: rest =>
      if k' = k then (k', { v with rating := some r }) :: rest
      else (k', v) :: dictSetRating rest k r

/-- Model of `d[k]["location"] = l` (only the location field changes). -/
def dictSetLoc (c : Catalogue) (k : String) (l : String) : Catalogue :=
  match c with
  | [] => []
  | (k', v) :: rest =>
      if k' = k then (k', { v with location := l }) :: rest
      else (k', v) :: dictSetLoc rest k l

/-! ## Persistence store (`load_restaurant_data` / `save_restaurant_data`) -/

/-- Abstract state of `restaurants.json`: absent, present but not valid
JSON, or present holding a catalogue. -/
inductive FileState where
  | missing
  | corrupt
  | valid (c : Catalogue)
  deriving DecidableEq, Repr

/-- Lines 38-46: return the parsed catalogue; on a missing file or a
`JSONDecodeError` return the empty dict (the error is only logged). -/
def load_restaurant_data (f : FileState) : Catalogue :=
  match f with
  | .missing => []
  | .corrupt => []
  | .valid c => c

/-- Lines 49-54: overwrite the file with the serialized catalogue. -/
def save_restaurant_data (c : Catalogue) : FileState :=
  .valid c

/-! ## Admin set (line 35) -/

/-- Python `int(id)` under the `isdigit` guard: the stripped digits read
as a decimal number (Python `int` ignores surrounding whitespace). -/
def pyIntOfEntry (s : String) : Int :=
  Int.ofNat (digitsVal (pyStrip s).data)

/-- Line 35: `[int(id) for id in env.split(",") if id.strip().isdigit()]`. -/
def admin_ids_of (env : String) : List Int :=
  ((pySplit env ',').filter (fun t => pyIsdigit (pyStrip t))).map pyIntOfEntry

/-- Lines 57-58: membership in the admin list. -/
def is_admin (admins : List Int) (user_id : Int) : Bool :=
  admins.contains user_id

/-! ## Main menu keyboard (lines 61-74) -/

/-- Keyboard rows as (label, callback-data) pairs.  The code first
builds the ordinary-user keyboard and, for an admin, replaces it
entirely by the admin keyboard. -/
def get_main_menu_keyboard (admins : List Int) (user_id : Int) : List (String × String) :=
  let keyboard := [("📋 Restoranlarni ko\x27rish", VIEW_RESTAURANTS),
                   ("⭐ Tavsiya etilgan restoranlar", RECOMMEND_RESTAURANTS)]
  if is_admin admins user_id then
    [("🍽️ Restoran qo\x27shish", ADD_RESTAURANT),
     ("✏️ Restoranni tahrirlash", EDIT_RESTAURANT),
     ("🗑️ Restoranni o\x27chirish", DELETE_RESTAURANT),
     ("🔙 Orqaga qaytish", CANCEL)]
  else keyboard

/-! ## Conversation controller -/

/-- Conversation states (line 18), plus the `ConversationHandler.END`
sentinel returned by `stop` / a denied `admin` command. -/
inductive ConvState where
  | SELECTING_ACTION
  | ADDING_NAME
  | ADDING_LOCATION
  | EDITING_RESTAURANT
  | WAITING_FOR_RATING
  | ENDED
  deriving DecidableEq, Repr

/-- Per-user `context.user_data` scratch fields used by the handlers. -/
structure UserData where
  restaurant_name : Option String := none
  rating_restaurant : Option String := none
  deriving DecidableEq, Repr

/-- Observable outcome of one handler invocation: the state it returns,
the scratch data afterwards, the file afterwards, whether
`save_restaurant_data` was called, and the texts rendered (in order). -/
structure StepResult where
  state : ConvState
  user : UserData
  file : FileState
  saved : Bool
  msgs : List String
  deriving DecidableEq, Repr

/-- The branch of the `menu_actions` `elif` chain a callback-data string
selects, with the `:<argument>` part already split off. -/
inductive MenuAction where
  | addR
  | editMenu
  | editSel (name : String)
  | viewMenu
  | viewSel (name : String)
  | recommendR
  | cancelA
  | deleteMenu
  | confirmDel (name : String)
  | rateSel (name : String)
  | rateVal (v : String)
  | other
  deriving DecidableEq, Repr

/-- The `elif` chain of `menu_actions` (lines 134-271) in source order;
`none` models the `IndexError` of `split(":", 1)[1]` on data without a
colon.  Note that the `rateVal` branch (line 258) sits below the
`startswith(RATE)` branch (line 241). -/
def classify (data : String) : Option MenuAction :=
  if data = ADD_RESTAURANT then some .addR
  else if data = EDIT_RESTAURANT then some .editMenu
  else if pyStartswith data (EDIT_RESTAURANT ++ ":") then (split1Tail data).map .editSel
  else if data = VIEW_RESTAURANTS then some .viewMenu
  else if pyStartswith data VIEW_RESTAURANT then (split1Tail data).map .viewSel
  else if data = RECOMMEND_RESTAURANTS then some .recommendR
  else if data = CANCEL then some .cancelA
  else if data = DELETE_RESTAURANT then some .deleteMenu
  else if pyStartswith data CONFIRM_DELETE then (split1Tail data).map .confirmDel
  else if pyStartswith data RATE then (split1Tail data).map .rateSel
  else if pyStartswith data "rate:" then (split1Tail data).map .rateVal
  else some .other

/-! ## Recommendation sort (line 201)

Python `sorted(..., key=..., reverse=True)` is a stable sort; with
`reverse=True` elements with equal keys still keep their original
relative order.  `pySortDesc` is that semantics: each element is placed
before the first strictly smaller key and after earlier equal keys. -/

/-- Stable descending insertion: `x` goes before the first element
whose key is at most `key x`. -/
def insDesc (key : α → Nat) (x : α) : List α → List α
  | [] => [x]
  | y :: ys => if key y ≤ key x then x :: y :: ys else y :: insDesc key x ys

/-- Stable descending sort by a numeric key. -/
def pySortDesc (key : α → Nat) : List α → List α
  | [] => []
  | x :: xs => insDesc key x (pySortDesc key xs)

/-- Sort key of line 201: `float(info.get('rating', 0))`, for the
digit-string ratings the bot writes. -/
def ratingKey (e : RInfo) : Nat :=
  match e.rating with
  | some s => digitsVal s.data
  | none => 0

/-- Line 195 filter: entries whose `rating` is present and truthy. -/
def ratingTruthy (e : RInfo) : Bool :=
  match e.rating with
  | some s => pyTruthy s
  | none => false

/-- The rated entries of the catalogue, in catalogue order (line 195). -/
def ratedOnly (c : Catalogue) : Catalogue :=
  c.filter (fun p => ratingTruthy p.2)

/-- Lines 195-201: the recommendation list rendered by `recommend`. -/
def recommendList (c : Catalogue) : Catalogue :=
  pySortDesc (fun p => ratingKey p.2) (ratedOnly c)

/-! ## Rendered texts -/

def denyAddMsg : String := "Sizda restoran qo\x27shish huquqi yo\x27q!"
def denyEditMsg : String := "Sizda restoran tahrirlash huquqi yo\x27q!"
def denyDeleteMsg : String := "Sizda restoran o\x27chirish huquqi yo\x27q!"
def notFoundMsg : String := "Bunday restoran topilmadi."
def noRestaurantsMsg : String := "Hech qanday restoran topilmadi."
def noRatedMsg : String := "Hech qanday baholangan restoran topilmadi."
def enterNameMsg : String := "Restoran nomini kiriting:"
def enterLocMsg : String := "Endi restoran joylashuvini (manzilini) kiriting:"
def chooseEditMsg : String := "Tahrirlash uchun restoran tanlang:"
def chooseViewMsg : String := "Restoranlarni tanlang:"
def chooseDeleteMsg : String := "O\x27chirmoqchi bo\x27lgan restoranni tanlang:"
def backToMainMsg : String := "Asosiy menyuga qaytish:\nQuyidagi amallardan birini tanlang:"
def deletedBackMsg : String := "Restoran o\x27chirildi. Asosiy menyuga qaytish:"
def ratedBackMsg : String := "Restoran baholandi. Asosiy menyuga qaytish:"

def editPromptMsg (name : String) : String :=
  "\x27" ++ name ++ "\x27 restorani uchun yangi joylashuvni kiriting:"

def ratePromptMsg (name : String) : String :=
  "\x27" ++ name ++ "\x27 restorani uchun 1 dan 5 gacha baho bering:"

def deleteDoneMsg (name : String) : String :=
  "\x27" ++ name ++ "\x27 restoran muvaffaqiyatli o\x27chirildi!"

def rateDoneMsg (name r : String) : String :=
  "\x27" ++ name ++ "\x27 restoran " ++ r ++ "⭐ bilan baholandi!"

def addDoneMsg (name loc : String) : String :=
  "Restoran muvaffaqiyatli qo\x27shildi!\n\n📝 Nomi: " ++ name ++ "\n📍 Manzil: " ++ loc

def editDoneMsg (name loc : String) : String :=
  "Restoran muvaffaqiyatli tahrirlandi!\n\n📝 Nomi: " ++ name ++ "\n📍 Yangi manzil: " ++ loc

/-- Lines 173-178: the restaurant detail text. -/
def viewInfoMsg (name : String) (info : RInfo) : String :=
  let rating_text :=
    match info.rating with
    | some s => if pyTruthy s then s ++ " ⭐" else "Baholanmagan"
    | none => "Baholanmagan"
  "🍽️ *" ++ name ++ "*\n📍 Manzil: " ++ info.location ++ "\n⭐ Baho: " ++ rating_text ++ "\n"

/-- Lines 202-204: the recommendation text body. -/
def recommendMsg (sortedR : Catalogue) : String :=
  sortedR.foldl
    (fun acc p =>
      acc ++ "🏆 *" ++ p.1 ++ "* - " ++ (p.2.rating.getD "") ++ "⭐\n📍 Manzil: " ++ p.2.location ++ "\n\n")
    "⭐ Tavsiya etilgan restoranlar:\n\n"

/-! ## `menu_actions` (lines 128-271) -/

/-- Effect of one classified menu action.  Every branch reloads the
catalogue from the file (line 132) and returns the state of its
`return` statement. -/
def dispatch (admins : List Int) (uid : Int) (a : MenuAction)
    (user : UserData) (file : FileState) : StepResult :=
  let restaurants := load_restaurant_data file
  match a with
  | .addR =>
      if !(is_admin admins uid) then ⟨.SELECTING_ACTION, user, file, false, [denyAddMsg]⟩
      else ⟨.ADDING_NAME, user, file, false, [enterNameMsg]⟩
  | .editMenu =>
      if !(is_admin admins uid) then ⟨.SELECTING_ACTION, user, file, false, [denyEditMsg]⟩
      else if restaurants.isEmpty then ⟨.SELECTING_ACTION, user, file, false, [noRestaurantsMsg]⟩
      else ⟨.SELECTING_ACTION, user, file, false, [chooseEditMsg]⟩
  | .editSel name =>
      if !(is_admin admins uid) then ⟨.SELECTING_ACTION, user, file, false, [denyEditMsg]⟩
      else ⟨.ADDING_LOCATION, { user with restaurant_name := some name }, file, false,
            [editPromptMsg name]⟩
  | .viewMenu =>
      if restaurants.isEmpty then ⟨.SELECTING_ACTION, user, file, false, [noRestaurantsMsg]⟩
      else ⟨.SELECTING_ACTION, user, file, false, [chooseViewMsg]⟩
  | .viewSel name =>
      match dictGet restaurants name with
      | some info => ⟨.SELECTING_ACTION, user, file, false, [viewInfoMsg name info]⟩
      | none => ⟨.SELECTING_ACTION, user, file, false, [notFoundMsg]⟩
  | .recommendR =>
      if restaurants.isEmpty then ⟨.SELECTING_ACTION, user, file, false, [noRestaurantsMsg]⟩
      else if (ratedOnly restaurants).isEmpty then
        ⟨.SELECTING_ACTION, user, file, false, [noRatedMsg]⟩
      else
        ⟨.SELECTING_ACTION, user, file, false, [recommendMsg (recommendList restaurants)]⟩
  | .cancelA => ⟨.SELECTING_ACTION, user, file, false, [backToMainMsg]⟩
  | .deleteMenu =>
      if !(is_admin admins uid) then ⟨.SELECTING_ACTION, user, file, false, [denyDeleteMsg]⟩
      else if restaurants.isEmpty then ⟨.SELECTING_ACTION, user, file, false, [noRestaurantsMsg]⟩
      else ⟨.SELECTING_ACTION, user, file, false, [chooseDeleteMsg]⟩
  | .confirmDel name =>
      if !(is_admin admins uid) then ⟨.SELECTING_ACTION, user, file, false, [denyDeleteMsg]⟩
      else if dictContains restaurants name then
        ⟨.SELECTING_ACTION, user, save_restaurant_data (dictDel restaurants name), true,
         [deleteDoneMsg name, deletedBackMsg]⟩
      else ⟨.SELECTING_ACTION, user, file, false, [notFoundMsg, deletedBackMsg]⟩
  | .rateSel name =>
      ⟨.WAITING_FOR_RATING, { user with rating_restaurant := some name }, file, false,
       [ratePromptMsg name]⟩
  | .rateVal v =>
      match user.rating_restaurant with
      | some name =>
          if pyTruthy name && dictContains restaurants name then
            ⟨.SELECTING_ACTION, user, save_restaurant_data (dictSetRating restaurants name v), true,
             [rateDoneMsg name v, ratedBackMsg]⟩
          else ⟨.SELECTING_ACTION, user, file, false, [notFoundMsg, ratedBackMsg]⟩
      | none => ⟨.SELECTING_ACTION, user, file, false, [notFoundMsg, ratedBackMsg]⟩
  | .other => ⟨.SELECTING_ACTION, user, file, false, []⟩

/-- `menu_actions` on the raw callback-data string. -/
def menu_actions (admins : List Int) (uid : Int) (data : String)
    (user : UserData) (file : FileState) : Option StepResult :=
  (classify data).map (fun a => dispatch admins uid a user file)

/-! ## Message handlers (lines 274-321) -/

/-- Lines 274-280: store the name in scratch, ask for the location. -/
def add_restaurant_name (admins : List Int) (uid : Int) (text : String)
    (user : UserData) (file : FileState) : StepResult :=
  if !(is_admin admins uid) then ⟨.SELECTING_ACTION, user, file, false, [denyAddMsg]⟩
  else ⟨.ADDING_LOCATION, { user with restaurant_name := some text }, file, false, [enterLocMsg]⟩

/-- Lines 283-299: write the new entry (location only) and persist;
`none` models the `KeyError` when no name is in scratch. -/
def add_restaurant_location (admins : List Int) (uid : Int) (text : String)
    (user : UserData) (file : FileState) : Option StepResult :=
  if !(is_admin admins uid) then some ⟨.SELECTING_ACTION, user, file, false, [denyAddMsg]⟩
  else
    match user.restaurant_name with
    | none => none
    | some name =>
        let restaurants := load_restaurant_data file
        let restaurants2 := dictSet restaurants name { location := text }
        some ⟨.SELECTING_ACTION, user, save_restaurant_data restaurants2, true,
              [addDoneMsg name text]⟩

/-- Lines 302-321: update only the location of an existing entry. -/
def edit_restaurant_location (admins : List Int) (uid : Int) (text : String)
    (user : UserData) (file : FileState) : Option StepResult :=
  if !(is_admin admins uid) then some ⟨.SELECTING_ACTION, user, file, false, [denyEditMsg]⟩
  else
    match user.restaurant_name with
    | none => none
    | some name =>
        let restaurants := load_restaurant_data file
        if dictContains restaurants name then
          some ⟨.SELECTING_ACTION, user, save_restaurant_data (dictSetLoc restaurants name text),
                true, [editDoneMsg name text]⟩
        else some ⟨.SELECTING_ACTION, user, file, false, [notFoundMsg]⟩

/-! ## The conversation handler wiring (lines 344-361) -/

/-- Inbound updates: a button press or a (non-command) text reply. -/
inductive Input where
  | callback (data : String)
  | textIn (s : String)
  deriving DecidableEq, Repr

/-- The `states=` table of the `ConversationHandler`: which handler runs
for an update in each state.  An update no handler of the current state
matches is ignored by the framework (state unchanged, nothing rendered). -/
def handle (admins : List Int) (uid : Int) (st : ConvState) (inp : Input)
    (user : UserData) (file : FileState) : Option StepResult :=
  match st, inp with
  | .SELECTING_ACTION, .callback d => menu_actions admins uid d user file
  | .WAITING_FOR_RATING, .callback d => menu_actions admins uid d user file
  | .ADDING_NAME, .textIn t => some (add_restaurant_name admins uid t user file)
  | .ADDING_LOCATION, .textIn t => add_restaurant_location admins uid t user file
  | .EDITING_RESTAURANT, .textIn t => edit_restaurant_location admins uid t user file
  | _, _ => some ⟨st, user, file, false, []⟩

/-! ## Dictionary lemmas -/

theorem dictGet_dictSet_self (c : Catalogue) (k : String) (v : RInfo) :
    dictGet (dictSet c k v) k = some v := by
  induction c with
  | nil => simp [dictSet, dictGet]
  | cons p rest ih =>
      obtain ⟨k', v'⟩ := p
      by_cases h : k' = k <;> simp [dictSet, dictGet, h, ih]

theorem dictGet_dictSet_ne (c : Catalogue) (k k' : String) (v : RInfo) (h : k' ≠ k) :
    dictGet (dictSet c k v) k' = dictGet c k' := by
  have hk : ¬ k = k' := fun hh => h hh.symm
  induction c with
  | nil => simp [dictSet, dictGet, hk]
  | cons p rest ih =>
      obtain ⟨k0, v0⟩ := p
      by_cases h0 : k0 = k
      · subst h0
        simp [dictSet, dictGet, hk]
      · by_cases h1 : k0 = k' <;> simp [dictSet, dictGet, h0, h1, hk, h, ih]

theorem keys_dictSet_of_contains (c : Catalogue) (k : String) (v : RInfo)
    (h : dictContains c k = true) :
    (dictSet c k v).map Prod.fst = c.map Prod.fst := by
  induction c with
  | nil => simp [dictContains, dictGet] at h
  | cons p rest ih =>
      obtain ⟨k0, v0⟩ := p
      by_cases h0 : k0 = k
      · simp [dictSet, h0]
      · simp [dictContains, dictGet, h0] at h
        simp [dictSet, h0, ih h]

theorem insDesc_perm (key : α → Nat) (x : α) (l : List α) :
    List.Perm (insDesc key x l) (x :: l) := by
  induction l with
  | nil => simp [insDesc]
  | cons y ys ih =>
      by_cases h : key y ≤ key x
      · simp [insDesc, h]
      · simp only [insDesc, if_neg h]
        exact (List.Perm.cons y ih).trans (List.Perm.swap x y ys)

theorem pySortDesc_perm (key : α → Nat) (l : List α) :
    List.Perm (pySortDesc key l) l := by
  induction l with
  | nil => simp [pySortDesc]
  | cons x xs ih =>
      exact (insDesc_perm key x (pySortDesc key xs)).trans (List.Perm.cons x ih)

theorem insDesc_pairwise (key : α → Nat) (x : α) (l : List α)
    (h : List.Pairwise (fun a b => key b ≤ key a) l) :
    List.Pairwise (fun a b => key b ≤ key a) (insDesc key x l) := by
  induction l with
  | nil => simp [insDesc]
  | cons y ys ih =>
      rcases h with _ | ⟨hy, hys⟩
      by_cases hxy : key y ≤ key x
      · rw [insDesc, if_pos hxy]
        refine List.Pairwise.cons ?_ (List.Pairwise.cons hy hys)
        intro b hb
        rcases List.mem_cons.mp hb with rfl | hb2
        · exact hxy
        · exact le_trans (hy b hb2) hxy
      · rw [insDesc, if_neg hxy]
        refine List.Pairwise.cons ?_ (ih hys)
        intro b hb
        have hmem := (insDesc_perm key x ys).mem_iff.mp hb
        rcases List.mem_cons.mp hmem with rfl | hb2
        · exact le_of_not_le hxy
        · exact hy b hb2

theorem pySortDesc_pairwise (key : α → Nat) (l : List α) :
    List.Pairwise (fun a b => key b ≤ key a) (pySortDesc key l) := by
  induction l with
  | nil => simp [pySortDesc]
  | cons x xs ih => exact insDesc_pairwise key x _ ih

theorem insDesc_filter_key (key : α → Nat) (n : Nat) (x : α) (l : List α) :
    (insDesc key x l).filter (fun a => key a == n) =
      if key x == n then x :: l.filter (fun a => key a == n)
      else l.filter (fun a => key a == n) := by
  induction l with
  | nil => by_cases h : key x == n <;> simp [insDesc, List.filter_cons, h]
  | cons y ys ih =>
      by_cases hxy : key y ≤ key x
      · by_cases h : key x == n <;> simp [insDesc, hxy, List.filter_cons, h]
      · have hgt : key x < key y := lt_of_not_le hxy
        by_cases hx : key x == n
        · have hxn : key x = n := by simpa using hx
          have hyn : (key y == n) = false := by
            simp only [beq_eq_false_iff_ne, ne_eq]
            omega
          simp [insDesc, hxy, List.filter_cons, hyn, ih, hx]
        · by_cases hy : key y == n <;> simp [insDesc, hxy, List.filter_cons, hy, ih, hx]

theorem pySortDesc_filter_key (key : α → Nat) (n : Nat) (l : List α) :
    (pySortDesc key l).filter (fun a => key a == n) = l.filter (fun a => key a == n) := by
  induction l with
  | nil => simp [pySortDesc]
  | cons x xs ih =>
      by_cases hx : key x == n <;>
        simp [pySortDesc, insDesc_filter_key, hx, List.filter_cons, ih]

/-! ## Claim theorems (authorization, persistence, menus, admin set) -/

/-- The menu actions guarded by the admin check (add, edit, delete). -/
def privilegedAction : MenuAction → Bool
  | .addR | .editMenu | .editSel _ | .deleteMenu | .confirmDel _ => true
  | _ => false

/-- The denial text each privileged action renders for a non-admin. -/
def denyMsgOf : MenuAction → String
  | .addR => denyAddMsg
  | .editMenu => denyEditMsg
  | .editSel _ => denyEditMsg
  | .deleteMenu => denyDeleteMsg
  | .confirmDel _ => denyDeleteMsg
  | _ => ""

/-- C2: a non-admin identity attempting any privileged action (add,
edit or delete, via menu button or free-text handler) gets exactly a
permission-denied message, no save is performed, the file is unchanged,
and the controller is in `SELECTING_ACTION`. -/
theorem nonadmin_privileged_no_mutation (admins : List Int) (uid : Int)
    (user : UserData) (file : FileState) (h : is_admin admins uid = false) :
    (∀ a, privilegedAction a = true →
       dispatch admins uid a user file =
         ⟨.SELECTING_ACTION, user, file, false, [denyMsgOf a]⟩) ∧
    (∀ t, add_restaurant_name admins uid t user file =
       ⟨.SELECTING_ACTION, user, file, false, [denyAddMsg]⟩) ∧
    (∀ t, add_restaurant_location admins uid t user file =
       some ⟨.SELECTING_ACTION, user, file, false, [denyAddMsg]⟩) ∧
    (∀ t, edit_restaurant_location admins uid t user file =
       some ⟨.SELECTING_ACTION, user, file, false, [denyEditMsg]⟩) := by
  refine ⟨?_, ?_, ?_, ?_⟩
  · intro a ha
    cases a <;> simp [privilegedAction] at ha <;> simp [dispatch, h, denyMsgOf]
  · intro t; simp [add_restaurant_name, h]
  · intro t; simp [add_restaurant_location, h]
  · intro t; simp [edit_restaurant_location, h]

/-- Witness for C2 at a concrete non-admin identity. -/
theorem nonadmin_privileged_no_mutation_check :
    dispatch [1] 2 .addR ⟨none, none⟩ (.valid []) =
      ⟨.SELECTING_ACTION, ⟨none, none⟩, .valid [], false, [denyAddMsg]⟩ :=
  (nonadmin_privileged_no_mutation [1] 2 ⟨none, none⟩ (.valid []) (by decide)).1 .addR (by decide)

/-- C4: loading never propagates an error: a missing file and a file
with invalid JSON both load as the empty catalogue, and a valid file
loads as its contents. -/
theorem load_fails_soft :
    load_restaurant_data .missing = [] ∧
    load_restaurant_data .corrupt = [] ∧
    ∀ c, load_restaurant_data (.valid c) = c :=
  ⟨rfl, rfl, fun _ => rfl⟩

/-- C10: the main menu is role-exclusive: an admin sees exactly the
add / edit / delete / back rows, a non-admin exactly the view /
recommend rows. -/
theorem main_menu_role_exclusive (admins : List Int) (uid : Int) :
    (is_admin admins uid = true →
       get_main_menu_keyboard admins uid =
         [("🍽️ Restoran qo\x27shish", ADD_RESTAURANT),
          ("✏️ Restoranni tahrirlash", EDIT_RESTAURANT),
          ("🗑️ Restoranni o\x27chirish", DELETE_RESTAURANT),
          ("🔙 Orqaga qaytish", CANCEL)]) ∧
    (is_admin admins uid = false →
       get_main_menu_keyboard admins uid =
         [("📋 Restoranlarni ko\x27rish", VIEW_RESTAURANTS),
          ("⭐ Tavsiya etilgan restoranlar", RECOMMEND_RESTAURANTS)]) := by
  constructor <;> intro h <;> simp [get_main_menu_keyboard, h]

/-- Witness for C10: both menus at concrete identities (1 is the only
admin, 2 is not). -/
theorem main_menu_role_exclusive_check :
    get_main_menu_keyboard [1] 1 =
      [("🍽️ Restoran qo\x27shish", ADD_RESTAURANT),
       ("✏️ Restoranni tahrirlash", EDIT_RESTAURANT),
       ("🗑️ Restoranni o\x27chirish", DELETE_RESTAURANT),
       ("🔙 Orqaga qaytish", CANCEL)] ∧
    get_main_menu_keyboard [1] 2 =
      [("📋 Restoranlarni ko\x27rish", VIEW_RESTAURANTS),
       ("⭐ Tavsiya etilgan restoranlar", RECOMMEND_RESTAURANTS)] :=
  ⟨(main_menu_role_exclusive [1] 1).1 (by decide),
   (main_menu_role_exclusive [1] 2).2 (by decide)⟩

/-- C8 counterexample: the entry `-5` is a well-formed integer identity
but fails `isdigit`, so it is dropped and the admin set is empty. -/
theorem admin_ids_negative_entry_dropped :
    admin_ids_of "-5" = [] := by decide

/-- C8 amended: the admin set contains exactly the values of the
comma-separated entries whose stripped text passes `isdigit` (a
nonempty all-digit string); every other entry, including negative
integers, is ignored. -/
theorem admin_ids_membership (env : String) (x : Int) :
    x ∈ admin_ids_of env ↔
      ∃ t, t ∈ pySplit env ',' ∧ pyIsdigit (pyStrip t) = true ∧ x = pyIntOfEntry t := by
  simp only [admin_ids_of, List.mem_map, List.mem_filter]
  constructor
  · rintro ⟨t, ⟨ht, hd⟩, rfl⟩
    exact ⟨t, ht, hd, rfl⟩
  · rintro ⟨t, ht, hd, rfl⟩
    exact ⟨t, ⟨ht, hd⟩, rfl⟩

/-- Witness for C8: a concrete digit entry is accepted with its value. -/
theorem admin_ids_membership_check : (7 : Int) ∈ admin_ids_of " 7 ,abc" :=
  (admin_ids_membership " 7 ,abc" 7).mpr ⟨" 7 ", by decide, by decide, by decide⟩

/-- C6: an admin confirming deletion of a name that is not in the
just-reloaded catalogue gets the not-found text, nothing is saved and
the file is unchanged. -/
theorem delete_missing_not_found_no_save (admins : List Int) (uid : Int)
    (name : String) (user : UserData) (file : FileState)
    (hadm : is_admin admins uid = true)
    (hmiss : dictGet (load_restaurant_data file) name = none) :
    dispatch admins uid (.confirmDel name) user file =
      ⟨.SELECTING_ACTION, user, file, false, [notFoundMsg, deletedBackMsg]⟩ := by
  simp [dispatch, hadm, dictContains, hmiss]

/-- Witness for C6 on a concrete catalogue without the name. -/
theorem delete_missing_not_found_no_save_check :
    dispatch [1] 1 (.confirmDel "X") ⟨none, none⟩ (.valid [("A", ⟨"L", none⟩)]) =
      ⟨.SELECTING_ACTION, ⟨none, none⟩, .valid [("A", ⟨"L", none⟩)], false,
       [notFoundMsg, deletedBackMsg]⟩ :=
  delete_missing_not_found_no_save [1] 1 "X" ⟨none, none⟩ (.valid [("A", ⟨"L", none⟩)])
    (by decide) (by decide)

/-- C5: for any starting file, completing the add flow (name reply,
then location reply) persists the catalogue, and the reloaded entry for
that name has exactly the written location. -/
theorem add_save_load_roundtrip (admins : List Int) (uid : Int)
    (name loc : String) (user : UserData) (file : FileState)
    (h : is_admin admins uid = true) :
    ∃ r1 r2,
      handle admins uid .ADDING_NAME (.textIn name) user file = some r1 ∧
      r1.state = .ADDING_LOCATION ∧
      handle admins uid .ADDING_LOCATION (.textIn loc) r1.user r1.file = some r2 ∧
      r2.saved = true ∧ r2.state = .SELECTING_ACTION ∧
      dictGet (load_restaurant_data r2.file) name = some { location := loc, rating := none } := by
  refine ⟨⟨.ADDING_LOCATION, { user with restaurant_name := some name }, file, false, [enterLocMsg]⟩,
          ⟨.SELECTING_ACTION, { user with restaurant_name := some name },
           save_restaurant_data (dictSet (load_restaurant_data file) name { location := loc }),
           true, [addDoneMsg name loc]⟩, ?_, rfl, ?_, rfl, rfl, ?_⟩
  · simp [handle, add_restaurant_name, h]
  · simp [handle, add_restaurant_location, h]
  · simp [save_restaurant_data, load_restaurant_data, dictGet_dictSet_self]

/-- Witness for C5: the spec scenario, admin adds Cafe X at Main St on
a missing file. -/
theorem add_save_load_roundtrip_check :
    is_admin [1] 1 = true ∧
    ∃ r1 r2,
      handle [1] 1 .ADDING_NAME (.textIn "Cafe X") ⟨none, none⟩ .missing = some r1 ∧
      r1.state = .ADDING_LOCATION ∧
      handle [1] 1 .ADDING_LOCATION (.textIn "Main St") r1.user r1.file = some r2 ∧
      r2.saved = true ∧ r2.state = .SELECTING_ACTION ∧
      dictGet (load_restaurant_data r2.file) "Cafe X" =
        some { location := "Main St", rating := none } :=
  ⟨by decide, add_save_load_roundtrip [1] 1 "Cafe X" "Main St" ⟨none, none⟩ .missing (by decide)⟩

/-- C7: the restaurant name is the unique catalogue key: completing the
add flow for an existing name overwrites that entry in place with just
the new location (rating absent), leaving the key sequence unchanged. -/
theorem add_existing_overwrites (admins : List Int) (uid : Int)
    (name loc : String) (user : UserData) (file : FileState)
    (hadm : is_admin admins uid = true)
    (hexists : dictContains (load_restaurant_data file) name = true) :
    ∃ r, add_restaurant_location admins uid loc
           { user with restaurant_name := some name } file = some r ∧
      r.saved = true ∧
      r.file = save_restaurant_data
        (dictSet (load_restaurant_data file) name { location := loc, rating := none }) ∧
      dictGet (load_restaurant_data r.file) name = some { location := loc, rating := none } ∧
      (load_restaurant_data r.file).map Prod.fst = (load_restaurant_data file).map Prod.fst := by
  refine ⟨⟨.SELECTING_ACTION, { user with restaurant_name := some name },
           save_restaurant_data (dictSet (load_restaurant_data file) name { location := loc }),
           true, [addDoneMsg name loc]⟩, ?_, rfl, rfl, ?_, ?_⟩
  · simp [add_restaurant_location, hadm]
  · simp [save_restaurant_data, load_restaurant_data, dictGet_dictSet_self]
  · exact keys_dictSet_of_contains (load_restaurant_data file) name _ hexists

/-- Witness for C7: overwriting the rated entry for Cafe X replaces it
by the fresh location-only record. -/
theorem add_existing_overwrites_check :
    ∃ r, add_restaurant_location [1] 1 "Main St"
           ⟨some "Cafe X", none⟩ (.valid [("Cafe X", ⟨"Old St", some "4"⟩)]) = some r ∧
      r.saved = true ∧
      r.file = save_restaurant_data
        (dictSet (load_restaurant_data (.valid [("Cafe X", ⟨"Old St", some "4"⟩)])) "Cafe X"
          { location := "Main St", rating := none }) ∧
      dictGet (load_restaurant_data r.file) "Cafe X" =
        some { location := "Main St", rating := none } ∧
      (load_restaurant_data r.file).map Prod.fst =
        (load_restaurant_data (.valid [("Cafe X", ⟨"Old St", some "4"⟩)])).map Prod.fst :=
  add_existing_overwrites [1] 1 "Cafe X" "Main St" ⟨none, none⟩
    (.valid [("Cafe X", ⟨"Old St", some "4"⟩)]) (by decide) (by decide)

/-! ## Claim theorems (recommendation sort, rating bug, edit flow) -/

/-- C3: `recommend` renders exactly the rated entries, in stable
descending numeric-rating order; with only unrated entries it renders
the empty-state text instead.  The three general conjuncts
(permutation, descending order, per-rating stability) characterize the
stable sort; the concrete conjuncts check the spec scenario A:3, B:5,
C:5, D:unrated and the empty-state path. -/
theorem recommend_filter_sort_stable :
    (∀ c : Catalogue,
       List.Perm (recommendList c) (ratedOnly c) ∧
       List.Pairwise (fun p q => ratingKey q.2 ≤ ratingKey p.2) (recommendList c) ∧
       (∀ n : Nat, (recommendList c).filter (fun p => ratingKey p.2 == n) =
          (ratedOnly c).filter (fun p => ratingKey p.2 == n))) ∧
    recommendList [("A", ⟨"la", some "3"⟩), ("B", ⟨"lb", some "5"⟩),
                   ("C", ⟨"lc", some "5"⟩), ("D", ⟨"ld", none⟩)] =
      [("B", ⟨"lb", some "5"⟩), ("C", ⟨"lc", some "5"⟩), ("A", ⟨"la", some "3"⟩)] ∧
    dispatch [] 0 .recommendR ⟨none, none⟩ (.valid [("D", ⟨"ld", none⟩)]) =
      ⟨.SELECTING_ACTION, ⟨none, none⟩, .valid [("D", ⟨"ld", none⟩)], false, [noRatedMsg]⟩ := by
  refine ⟨fun c => ⟨?_, ?_, fun n => ?_⟩, by decide, by decide⟩
  · exact pySortDesc_perm _ _
  · exact pySortDesc_pairwise _ _
  · exact pySortDesc_filter_key _ n _

/-- Detects the dead `rate:<value>` branch of the `elif` chain. -/
def isRateVal : MenuAction → Bool
  | .rateVal _ => true
  | _ => false

/-- A string starting with `rate:` also starts with `rate`. -/
theorem pyStartswith_rate_of_rateColon (d : String)
    (h : pyStartswith d "rate:" = true) : pyStartswith d RATE = true := by
  unfold pyStartswith at h ⊢
  have h1 : "rate:".data <+: d.data := List.isPrefixOf_iff_prefix.mp h
  have h2 : RATE.data <+: "rate:".data := ⟨[':'], by decide⟩
  exact List.isPrefixOf_iff_prefix.mpr (h2.trans h1)

set_option maxHeartbeats 1000000 in
/-- The `startswith("rate:")` arm of `classify` is dead code: it sits
below `startswith(RATE)`, which already matches every such string. -/
theorem classify_no_rateVal (d : String) :
    ((classify d).map isRateVal).getD false = false := by
  unfold classify
  split_ifs with h1 h2 h3 h4 h5 h6 h7 h8 h9 h10 h11
  all_goals try rfl
  all_goals try (cases split1Tail d <;> simp [isRateVal])
  exact absurd (pyStartswith_rate_of_rateColon d h11) h10

/-- C1 is false of the code: in `WAITING_FOR_RATING`, the button data
`rate:3` is captured by the earlier `startswith(RATE)` branch, which
records "3" as the new rating target and re-renders the rating prompt;
no rating is written, nothing is saved, the state stays
`WAITING_FOR_RATING`.  The dead lower branch (line 258) would have done
what the spec says, as the last conjunct shows. -/
theorem rate_button_shadowed_no_persist :
    (∀ d, ((classify d).map isRateVal).getD false = false) ∧
    classify "rate:3" = some (.rateSel "3") ∧
    handle [7] 7 .WAITING_FOR_RATING (.callback "rate:3")
        ⟨none, some "A"⟩ (.valid [("A", ⟨"L", none⟩)]) =
      some ⟨.WAITING_FOR_RATING, ⟨none, some "3"⟩, .valid [("A", ⟨"L", none⟩)],
            false, [ratePromptMsg "3"]⟩ ∧
    dispatch [7] 7 (.rateVal "3") ⟨none, some "A"⟩ (.valid [("A", ⟨"L", none⟩)]) =
      ⟨.SELECTING_ACTION, ⟨none, some "A"⟩, .valid [("A", ⟨"L", some "3"⟩)],
       true, [rateDoneMsg "A" "3", ratedBackMsg]⟩ :=
  ⟨classify_no_rateVal, by decide, by decide, by decide⟩

/-- No branch of `menu_actions` returns the `EDITING_RESTAURANT`
state. -/
theorem dispatch_state_not_editing (admins : List Int) (uid : Int)
    (a : MenuAction) (user : UserData) (file : FileState)
    (h : (dispatch admins uid a user file).state = ConvState.EDITING_RESTAURANT) : False := by
  cases a <;> simp only [dispatch] at h <;> (repeat' split at h) <;> simp at h

/-- The only way a handler run ends with the conversation in
`EDITING_RESTAURANT` is to have started there (as a framework no-op):
no transition of the wired states enters it. -/
theorem handle_editing_unreachable (admins : List Int) (uid : Int)
    (st : ConvState) (inp : Input) (user : UserData) (file : FileState)
    (r : StepResult) (hr : handle admins uid st inp user file = some r)
    (hs : r.state = ConvState.EDITING_RESTAURANT) : st = ConvState.EDITING_RESTAURANT := by
  cases st with
  | EDITING_RESTAURANT => rfl
  | SELECTING_ACTION =>
      exfalso
      cases inp with
      | callback d =>
          simp only [handle, menu_actions] at hr
          rcases Option.map_eq_some'.mp hr with ⟨a, ha, rfl⟩
          exact dispatch_state_not_editing admins uid a user file hs
      | textIn t =>
          simp only [handle, Option.some.injEq] at hr
          subst hr; simp at hs
  | WAITING_FOR_RATING =>
      exfalso
      cases inp with
      | callback d =>
          simp only [handle, menu_actions] at hr
          rcases Option.map_eq_some'.mp hr with ⟨a, ha, rfl⟩
          exact dispatch_state_not_editing admins uid a user file hs
      | textIn t =>
          simp only [handle, Option.some.injEq] at hr
          subst hr; simp at hs
  | ADDING_NAME =>
      exfalso
      cases inp with
      | callback d =>
          simp only [handle, Option.some.injEq] at hr
          subst hr; simp at hs
      | textIn t =>
          simp only [handle, Option.some.injEq] at hr
          subst hr
          revert hs
          simp only [add_restaurant_name]
          split_ifs <;> simp
  | ADDING_LOCATION =>
      exfalso
      cases inp with
      | callback d =>
          simp only [handle, Option.some.injEq] at hr
          subst hr; simp at hs
      | textIn t =>
          simp only [handle, add_restaurant_location] at hr
          split_ifs at hr
          · rw [Option.some.injEq] at hr; subst hr; simp at hs
          · cases hn : user.restaurant_name <;> rw [hn] at hr
            · exact Option.noConfusion hr
            · rw [Option.some.injEq] at hr; subst hr; simp at hs
  | ENDED =>
      exfalso
      cases inp <;> simp only [handle, Option.some.injEq] at hr <;> (subst hr; simp at hs)

/-- C9: selecting edit for a restaurant routes the free-text reply to
the `ADDING_LOCATION` handler, which replaces the entire stored entry
by a location-only record, discarding the previous rating.  The
rating-preserving `EDITING_RESTAURANT` state is never entered by any
transition. -/
theorem edit_flow_discards_rating (admins : List Int) (uid : Int)
    (name loc l0 r0 : String) (user : UserData) (file : FileState)
    (hadm : is_admin admins uid = true)
    (hent : dictGet (load_restaurant_data file) name = some ⟨l0, some r0⟩) :
    (∃ r1 r2,
      dispatch admins uid (.editSel name) user file = r1 ∧
      r1.state = .ADDING_LOCATION ∧
      r1.user.restaurant_name = some name ∧
      r1.file = file ∧
      handle admins uid r1.state (.textIn loc) r1.user r1.file = some r2 ∧
      r2.state = .SELECTING_ACTION ∧ r2.saved = true ∧
      dictGet (load_restaurant_data r2.file) name = some { location := loc, rating := none }) ∧
    (∀ st inp u f r, handle admins uid st inp u f = some r →
       r.state = ConvState.EDITING_RESTAURANT → st = ConvState.EDITING_RESTAURANT) := by
  constructor
  · refine ⟨⟨.ADDING_LOCATION, { user with restaurant_name := some name }, file, false,
             [editPromptMsg name]⟩,
            ⟨.SELECTING_ACTION, { user with restaurant_name := some name },
             save_restaurant_data (dictSet (load_restaurant_data file) name { location := loc }),
             true, [addDoneMsg name loc]⟩, ?_, rfl, rfl, rfl, ?_, rfl, rfl, ?_⟩
    · simp [dispatch, hadm]
    · simp [handle, add_restaurant_location, hadm]
    · simp [save_restaurant_data, load_restaurant_data, dictGet_dictSet_self]
  · intro st inp u f r hr hs
    exact handle_editing_unreachable admins uid st inp u f r hr hs

/-- Witness for C9: editing the rated Cafe X replaces its whole entry,
losing the old rating "4". -/
theorem edit_flow_discards_rating_check :
    is_admin [1] 1 = true ∧
    (∃ r1 r2,
      dispatch [1] 1 (.editSel "Cafe X") ⟨none, none⟩
          (.valid [("Cafe X", ⟨"Old St", some "4"⟩)]) = r1 ∧
      r1.state = .ADDING_LOCATION ∧
      r1.user.restaurant_name = some "Cafe X" ∧
      r1.file = .valid [("Cafe X", ⟨"Old St", some "4"⟩)] ∧
      handle [1] 1 r1.state (.textIn "New St") r1.user r1.file = some r2 ∧
      r2.state = .SELECTING_ACTION ∧ r2.saved = true ∧
      dictGet (load_restaurant_data r2.file) "Cafe X" =
        some { location := "New St", rating := none }) :=
  ⟨by decide,
   (edit_flow_discards_rating [1] 1 "Cafe X" "New St" "Old St" "4" ⟨none, none⟩
     (.valid [("Cafe X", ⟨"Old St", some "4"⟩)]) (by decide) (by decide)).1⟩

end RestoBot
